import Mathlib

/-!
# Verification of the disease_sync transformation and sync engine

A shallow embedding of `src/main.rs` (the `disease_sync` binary).  The
program generates MySQL statements; we embed the relational semantics of
those statements over list-modelled tables.

Modelling conventions:
* MySQL `NULL`-able columns become `Option` fields; columns used as join
  keys (`hn`, `vn`, `icode`, `code`) are modelled as non-null `String`s,
  since a `NULL` key never satisfies an equality join condition.
* `CURDATE()` / `YEAR(CURDATE())` is modelled by an explicit parameter
  `today : Int` (the current calendar year); the incremental window
  boundary `DATE_SUB(NOW(), INTERVAL h HOUR)` is modelled by an explicit
  cutoff date parameter.
* MySQL `TRIM` with no modifier removes leading and trailing space
  characters; `mysqlTrim` mirrors that.
* `GROUP_CONCAT(DISTINCT … SEPARATOR '|')` is modelled as
  first-occurrence deduplication followed by `String.intercalate "|"`;
  `GROUP_CONCAT` skips `NULL` operands and returns `NULL` (hence the
  `COALESCE` default) when every operand is `NULL`.
* `ORDER BY o.vstdate DESC` is modelled with Mathlib's `insertionSort`
  under a total descending comparison in which `NULL` dates sort last.
* `INSERT … ON DUPLICATE KEY UPDATE` affected-row accounting follows the
  MySQL protocol: 1 for a fresh insert, 2 for an update that changes at
  least one assigned column, 0 for an update that changes nothing.
-/

namespace DiseaseSync

/-- A calendar date (MySQL `DATE`). -/
structure Date where
  year : Int
  month : Nat
  day : Nat
deriving DecidableEq, Repr

/-- Lexicographic `≤` on dates (MySQL `DATE` comparison). -/
def Date.le (a b : Date) : Bool :=
  if a.year < b.year then true
  else if b.year < a.year then false
  else if a.month < b.month then true
  else if b.month < a.month then false
  else a.day ≤ b.day

/-- `≤` on nullable dates: in MySQL, `NULL` sorts before every value in
ascending order, hence after every value under `ORDER BY … DESC`. -/
def optDateLe : Option Date → Option Date → Bool
  | none, _ => true
  | some _, none => false
  | some a, some b => Date.le a b

/-- A row of the source table `opdscreen` (one screening per visit). -/
structure OpdRow where
  hn : String
  vn : String
  cc : Option String
  vstdate : Option Date
deriving DecidableEq, Repr

/-- A row of the source table `vn_stat` (per-visit statistics, carries the
principal diagnosis `pdx`). -/
structure VnStatRow where
  vn : String
  pdx : Option String
deriving DecidableEq, Repr

/-- A row of the source table `icd101` (the ICD-10 code dictionary). -/
structure Icd101Row where
  code : String
  name : Option String
deriving DecidableEq, Repr

/-- A row of the source table `opitemrece` (prescription line items). -/
structure OpItemRow where
  vn : String
  icode : String
deriving DecidableEq, Repr

/-- A row of the source table `drugitems` (the drug dictionary). -/
structure DrugRow where
  icode : String
  name : Option String
  strength : Option String
deriving DecidableEq, Repr

/-- A row of the source table `hismember` (the patient registry). -/
structure HisMemberRow where
  hn : String
  sex : Option String
deriving DecidableEq, Repr

/-- The source database: the six tables referenced by the sync queries. -/
structure SourceDb where
  opdscreen : List OpdRow
  vn_stat : List VnStatRow
  icd101 : List Icd101Row
  opitemrece : List OpItemRow
  drugitems : List DrugRow
  hismember : List HisMemberRow
deriving DecidableEq, Repr

/-- A destination row of `ai_disease_training_data` (the columns written
by the sync; the surrogate `id` and the timestamps are database-managed
and irrelevant to the claims). -/
structure TrainingRow where
  visit_id : String
  hn : String
  vn : String
  symptoms : String
  icd10_code : String
  disease_name : String
  medicines : String
  age : Int
  sex : String
  visit_date : Option Date
deriving DecidableEq, Repr

/-- The statistics record produced by a sync run (`SyncStats` in the
source; the wall-clock duration fields are not modelled). -/
structure SyncStats where
  total_processed : Nat
  total_inserted : Nat
  total_errors : Nat
deriving DecidableEq, Repr

/-- Strip leading space characters (the only characters MySQL `TRIM`
removes by default). -/
def trimLeadingSpaces : List Char → List Char
  | [] => []
  | c :: cs => if c = ' ' then trimLeadingSpaces cs else c :: cs

/-- MySQL `TRIM(str)`: remove leading and trailing spaces. -/
def mysqlTrim (s : String) : String :=
  ⟨(trimLeadingSpaces (trimLeadingSpaces s.data.reverse).reverse)⟩

/-- SQL `LEFT JOIN` against one outer row: all matching rows of the
joined table, or a single `NULL` row when none matches. -/
def leftJoin (t : List α) (p : α → Bool) : List (Option α) :=
  match t.filter p with
  | [] => [none]
  | m => m.map some

/-- One row of the six-table join in `get_insert_query` (and the
identical joins in `execute_incremental_sync` and `preview_data`). -/
structure JoinRow where
  o : OpdRow
  v : Option VnStatRow
  i : Option Icd101Row
  op : Option OpItemRow
  d : Option DrugRow
  h : Option HisMemberRow
deriving DecidableEq, Repr

/-- Join condition `i.code = v.pdx` (false when `v` is the `NULL` row or
`v.pdx` is `NULL`, as SQL equality with `NULL` never holds). -/
def icdMatch (v : Option VnStatRow) (i : Icd101Row) : Bool :=
  match v with
  | some vr =>
    match vr.pdx with
    | some p => i.code == p
    | none => false
  | none => false

/-- Join condition `d.icode = op.icode` (false when `op` is the `NULL`
row). -/
def drugMatch (op : Option OpItemRow) (d : DrugRow) : Bool :=
  match op with
  | some opr => d.icode == opr.icode
  | none => false

/-- The `FROM opdscreen o LEFT JOIN vn_stat v … LEFT JOIN hismember h`
chain of the sync query, before the `WHERE` filter. -/
def joinedRows (db : SourceDb) : List JoinRow :=
  db.opdscreen.flatMap fun o =>
    (leftJoin db.vn_stat (fun v => v.vn == o.vn)).flatMap fun v =>
      (leftJoin db.icd101 (icdMatch v)).flatMap fun i =>
        (leftJoin db.opitemrece (fun op => op.vn == o.vn)).flatMap fun op =>
          (leftJoin db.drugitems (drugMatch op)).flatMap fun d =>
            (leftJoin db.hismember (fun h => h.hn == o.hn)).map fun h =>
              ⟨o, v, i, op, d, h⟩

/-- The `WHERE i.code IS NOT NULL AND TRIM(COALESCE(v.pdx, '')) != ''`
eligibility filter.  In the join, `i.code` is non-`NULL` exactly when the
`icd101` lookup matched. -/
def eligibleJoin (r : JoinRow) : Bool :=
  r.i.isSome &&
    !(mysqlTrim (match r.v with
        | some vr => vr.pdx.getD ""
        | none => "") == "")

/-- The join rows surviving the eligibility `WHERE` clause. -/
def filteredRows (db : SourceDb) : List JoinRow :=
  (joinedRows db).filter eligibleJoin

/-- The `GROUP BY o.hn, o.vn, i.code, o.vstdate` grouping key. -/
def groupKey (r : JoinRow) : String × String × String × Option Date :=
  (r.o.hn, r.o.vn, (r.i.map Icd101Row.code).getD "", r.o.vstdate)

/-- Deduplication keeping first occurrences, with an accumulator of
already-seen elements (structurally recursive so concrete instances
evaluate). -/
def dedupFirstAux [DecidableEq α] (seen : List α) : List α → List α
  | [] => []
  | a :: as =>
    if a ∈ seen then dedupFirstAux seen as
    else a :: dedupFirstAux (a :: seen) as

/-- Deduplication keeping the first occurrence of each element. -/
def dedupFirst [DecidableEq α] (l : List α) : List α :=
  dedupFirstAux [] l

/-- The `CONCAT(d.name, ' ', COALESCE(d.strength, ''))` operand of
`GROUP_CONCAT`, per group row: `NULL` (skipped) unless the row joined a
drug with a non-`NULL` name. -/
def drugPairs (g : List JoinRow) : List String :=
  g.filterMap fun r =>
    r.d.bind fun dr => dr.name.map fun n => n ++ " " ++ dr.strength.getD ""

/-- `COALESCE(GROUP_CONCAT(DISTINCT … SEPARATOR '|'), 'Unknown')`:
the deduplicated drug strings of a group joined with `|`, or `"Unknown"`
when the group contributes no non-`NULL` operand. -/
def medicinesOf (g : List JoinRow) : String :=
  match dedupFirst (drugPairs g) with
  | [] => "Unknown"
  | ps => String.intercalate "|" ps

/-- `YEAR(CURDATE()) - YEAR(COALESCE(o.vstdate, CURDATE()))`. -/
def ageOf (today : Int) (vstdate : Option Date) : Int :=
  today - (match vstdate with
    | some d => d.year
    | none => today)

/-- The `SELECT` output row of one non-empty `GROUP BY` group.  The
non-aggregated columns are taken from the group's first row (MySQL picks
an arbitrary group member for columns outside the grouping key). -/
def rowOfGroup (today : Int) : List JoinRow → Option TrainingRow
  | [] => none
  | f :: g =>
    some
      { visit_id := f.o.hn ++ "-" ++ f.o.vn
        hn := f.o.hn
        vn := f.o.vn
        symptoms := f.o.cc.getD "Unknown"
        icd10_code := (f.i.map Icd101Row.code).getD "Unknown"
        disease_name := (f.i.bind Icd101Row.name).getD "Unknown"
        medicines := medicinesOf (f :: g)
        age := ageOf today f.o.vstdate
        sex := (f.h.bind HisMemberRow.sex).getD "U"
        visit_date := f.o.vstdate }

/-- Evaluate the grouped `SELECT` over a bag of filtered join rows:
one output row per distinct grouping key. -/
def selectFrom (today : Int) (rows : List JoinRow) : List TrainingRow :=
  (dedupFirst (rows.map groupKey)).filterMap fun k =>
    rowOfGroup today (rows.filter (fun r => groupKey r == k))

/-- The full (unwindowed, unordered) result set of the sync `SELECT`. -/
def selectRows (db : SourceDb) (today : Int) : List TrainingRow :=
  selectFrom today (filteredRows db)

/-- `ORDER BY o.vstdate DESC` as a binary relation on output rows. -/
def descByDate (a b : TrainingRow) : Prop :=
  optDateLe b.visit_date a.visit_date = true

instance : DecidableRel descByDate := fun a b =>
  decEq (optDateLe b.visit_date a.visit_date) true

/-- The result rows of `get_insert_query` (full sync): ordered by
`visit_date` descending and capped by `LIMIT ?` at the configured row
limit. -/
def fullRows (db : SourceDb) (today : Int) (limit : Nat) : List TrainingRow :=
  (List.insertionSort descByDate (selectRows db today)).take limit

/-- The result rows of `preview_data`: the same query with `LIMIT 10`. -/
def previewRows (db : SourceDb) (today : Int) : List TrainingRow :=
  (List.insertionSort descByDate (selectRows db today)).take 10

/-- `o.vstdate >= DATE_SUB(NOW(), INTERVAL ? HOUR)` with the window
boundary as an explicit cutoff date; a `NULL` `vstdate` fails the
comparison. -/
def inWindow (cutoff : Date) (vstdate : Option Date) : Bool :=
  match vstdate with
  | some d => Date.le cutoff d
  | none => false

/-- The result rows of the incremental `SELECT`: the eligibility filter
plus the time window, no ordering, no limit. -/
def incrementalRows (db : SourceDb) (today : Int) (cutoff : Date) :
    List TrainingRow :=
  selectFrom today
    ((joinedRows db).filter fun r => eligibleJoin r && inWindow cutoff r.o.vstdate)

/-- The `ON DUPLICATE KEY UPDATE` assignment list: overwrite `symptoms`,
`disease_name`, `medicines` and `age` with the incoming values, keeping
every other column of the existing row. -/
def updatedCols (old new : TrainingRow) : TrainingRow :=
  { old with
    symptoms := new.symptoms
    disease_name := new.disease_name
    medicines := new.medicines
    age := new.age }

/-- Do the four assigned columns already hold the incoming values? -/
def candidateColsEq (old new : TrainingRow) : Bool :=
  old.symptoms == new.symptoms && old.disease_name == new.disease_name &&
    old.medicines == new.medicines && old.age == new.age

/-- Upsert one record into the destination table (unique key
`visit_id`), returning the new table and the MySQL affected-row count
for this record: 1 for an insert, 2 for a changing update, 0 for a
no-change update. -/
def upsertOne (table : List TrainingRow) (r : TrainingRow) :
    List TrainingRow × Nat :=
  match table.find? (fun t => t.visit_id == r.visit_id) with
  | none => (table ++ [r], 1)
  | some old =>
    (table.map fun t =>
       if t.visit_id == r.visit_id then updatedCols t r else t,
     if candidateColsEq old r then 0 else 2)

/-- Upsert a list of records in order, accumulating the table state and
the total affected-row count (`rows_affected()` of the statement). -/
def upsertAll (table : List TrainingRow) : List TrainingRow → List TrainingRow × Nat
  | [] => (table, 0)
  | r :: rs =>
    let step := upsertOne table r
    let rest := upsertAll step.1 rs
    (rest.1, step.2 + rest.2)

/-- `main`'s Full branch followed by `execute_full_sync`: truncate the
destination, short-circuit with zero stats when `opdscreen` is empty,
otherwise run the insert query and report its affected-row count as both
`total_processed` and `total_inserted`. -/
def fullSync (db : SourceDb) (today : Int) (limit : Nat)
    (dst : List TrainingRow) : SyncStats × List TrainingRow :=
  let cleared : List TrainingRow := []
  if db.opdscreen.length = 0 then
    (⟨0, 0, 0⟩, cleared)
  else
    let rows := fullRows db today limit
    (⟨rows.length, rows.length, 0⟩, cleared ++ rows)

/-- `execute_incremental_sync`: run the windowed upsert and report its
affected-row count as both `total_processed` and `total_inserted`, with
`total_errors = 0`. -/
def incrementalSync (db : SourceDb) (today : Int) (cutoff : Date)
    (dst : List TrainingRow) : SyncStats × List TrainingRow :=
  let res := upsertAll dst (incrementalRows db today cutoff)
  (⟨res.2, res.2, 0⟩, res.1)

/-- `preview_data` runs the query against the source only; the
destination state is read from neither written: it returns the preview
rows and the destination unchanged. -/
def runPreview (db : SourceDb) (today : Int) (dst : List TrainingRow) :
    List TrainingRow × List TrainingRow :=
  (previewRows db today, dst)

/-- `ROUND(AVG(age), 1)` over rows with `age > 0`: `NULL` (`none`) over
an empty set, otherwise the mean rounded to one decimal. -/
def avgAgeMetric (table : List TrainingRow) : Option ℚ :=
  let ages := (table.filter fun r => 0 < r.age).map TrainingRow.age
  match ages with
  | [] => none
  | _ =>
    some ((round (((ages.foldl (· + ·) 0 : Int) : ℚ) / (ages.length : ℚ) * 10) : Int) / 10)

/-- Display of one verify metric: `value.unwrap_or("N/A")` in the
source — absent aggregates print the `"N/A"` placeholder. -/
def displayMetric : Option ℚ → String
  | none => "N/A"
  | some q => toString q

/-- `verify_data_integrity`: the six independent integrity checks, each
computed on its own and reported as a (label, displayed value) pair. -/
def verifyChecks (table : List TrainingRow) : List (String × String) :=
  [("Total Records", toString table.length),
   ("Unique Patients (HN)",
     toString (dedupFirst (table.map TrainingRow.hn)).length),
   ("Unique Diseases (ICD10)",
     toString (dedupFirst
       ((table.filter fun r => !(r.icd10_code == "Unknown")).map
         TrainingRow.icd10_code)).length),
   ("Records with Unknown Symptoms",
     toString (table.filter fun r => r.symptoms == "Unknown").length),
   ("Records with Unknown Disease",
     toString (table.filter fun r => r.disease_name == "Unknown").length),
   ("Average Age", displayMetric (avgAgeMetric table))]

/-! ## Order and list infrastructure lemmas -/

theorem Date.le_total (a b : Date) : a.le b = true ∨ b.le a = true := by
  simp only [Date.le, decide_eq_true_eq]
  split_ifs <;> simp_all <;> omega

theorem Date.le_trans {a b c : Date} (h1 : a.le b = true) (h2 : b.le c = true) :
    a.le c = true := by
  simp only [Date.le, decide_eq_true_eq] at h1 h2 ⊢
  split_ifs at h1 h2 ⊢ <;> simp_all <;> omega

theorem optDateLe_total (a b : Option Date) :
    optDateLe a b = true ∨ optDateLe b a = true := by
  cases a with
  | none => left; rfl
  | some x =>
    cases b with
    | none => right; rfl
    | some y => exact Date.le_total x y

theorem optDateLe_trans {a b c : Option Date} (h1 : optDateLe a b = true)
    (h2 : optDateLe b c = true) : optDateLe a c = true := by
  cases a with
  | none => rfl
  | some x =>
    cases b with
    | none => exact absurd h1 (by simp [optDateLe])
    | some y =>
      cases c with
      | none => exact absurd h2 (by simp [optDateLe])
      | some z => exact Date.le_trans h1 h2

instance : IsTotal TrainingRow descByDate :=
  ⟨fun a b => by
    unfold descByDate
    exact optDateLe_total b.visit_date a.visit_date⟩

instance : IsTrans TrainingRow descByDate :=
  ⟨fun a b c hab hbc => by
    unfold descByDate at hab hbc ⊢
    exact optDateLe_trans hbc hab⟩

theorem mem_dedupFirstAux [DecidableEq α] {x : α} :
    ∀ {l seen : List α}, x ∈ dedupFirstAux seen l ↔ x ∈ l ∧ x ∉ seen := by
  intro l
  induction l with
  | nil => intro seen; simp [dedupFirstAux]
  | cons a as ih =>
    intro seen
    unfold dedupFirstAux
    by_cases ha : a ∈ seen
    · rw [if_pos ha, ih]
      constructor
      · rintro ⟨h1, h2⟩
        exact ⟨List.mem_cons_of_mem _ h1, h2⟩
      · rintro ⟨h1, h2⟩
        rcases List.mem_cons.mp h1 with rfl | h1
        · exact absurd ha h2
        · exact ⟨h1, h2⟩
    · rw [if_neg ha]
      constructor
      · intro h
        rcases List.mem_cons.mp h with rfl | h
        · exact ⟨List.mem_cons_self _ _, ha⟩
        · obtain ⟨h1, h2⟩ := ih.mp h
          refine ⟨List.mem_cons_of_mem _ h1, fun hx => h2 ?_⟩
          exact List.mem_cons_of_mem _ hx
      · rintro ⟨h1, h2⟩
        rcases List.mem_cons.mp h1 with rfl | h1
        · exact List.mem_cons_self _ _
        · by_cases hxa : x = a
          · subst hxa; exact List.mem_cons_self _ _
          · refine List.mem_cons_of_mem _ (ih.mpr ⟨h1, fun hx => ?_⟩)
            rcases List.mem_cons.mp hx with h | h
            · exact hxa h
            · exact h2 h

theorem mem_dedupFirst [DecidableEq α] {x : α} {l : List α} :
    x ∈ dedupFirst l ↔ x ∈ l := by
  unfold dedupFirst
  rw [mem_dedupFirstAux]
  simp

theorem dedupFirst_eq_nil_iff [DecidableEq α] {l : List α} :
    dedupFirst l = [] ↔ l = [] := by
  cases l with
  | nil => simp [dedupFirst, dedupFirstAux]
  | cons a as => simp [dedupFirst, dedupFirstAux]

theorem length_filterMap_of_some {f : α → Option β} :
    ∀ {l : List α}, (∀ x ∈ l, (f x).isSome) →
      (l.filterMap f).length = l.length := by
  intro l
  induction l with
  | nil => intro _; rfl
  | cons a as ih =>
    intro h
    have ha := h a (List.mem_cons_self _ _)
    cases hfa : f a with
    | none => rw [hfa] at ha; cases ha
    | some b =>
      rw [List.filterMap_cons, hfa]
      simp only [List.length_cons]
      rw [ih fun x hx => h x (List.mem_cons_of_mem _ hx)]

theorem of_mem_leftJoin_some {t : List α} {p : α → Bool} {b : α}
    (h : some b ∈ leftJoin t p) : b ∈ t ∧ p b = true := by
  unfold leftJoin at h
  cases hf : t.filter p with
  | nil => rw [hf] at h; simp at h
  | cons a as =>
    rw [hf] at h
    obtain ⟨c, hc, hcb⟩ := List.mem_map.mp h
    have hcb' : c = b := Option.some.inj hcb
    subst hcb'
    rw [← hf] at hc
    exact List.mem_filter.mp hc

theorem leftJoin_none {t : List α} {p : α → Bool}
    (hp : ∀ b ∈ t, p b = false) {x : Option α} (h : x ∈ leftJoin t p) :
    x = none := by
  cases x with
  | none => rfl
  | some b =>
    obtain ⟨hb, hpb⟩ := of_mem_leftJoin_some h
    rw [hp b hb] at hpb
    cases hpb

theorem mem_joinedRows {db : SourceDb} {r : JoinRow} :
    r ∈ joinedRows db ↔
      r.o ∈ db.opdscreen ∧
      r.v ∈ leftJoin db.vn_stat (fun v => v.vn == r.o.vn) ∧
      r.i ∈ leftJoin db.icd101 (icdMatch r.v) ∧
      r.op ∈ leftJoin db.opitemrece (fun op => op.vn == r.o.vn) ∧
      r.d ∈ leftJoin db.drugitems (drugMatch r.op) ∧
      r.h ∈ leftJoin db.hismember (fun h => h.hn == r.o.hn) := by
  unfold joinedRows
  simp only [List.mem_flatMap, List.mem_map]
  constructor
  · rintro ⟨o, ho, v, hv, i, hi, op, hop, d, hd, h, hh, rfl⟩
    exact ⟨ho, hv, hi, hop, hd, hh⟩
  · rintro ⟨ho, hv, hi, hop, hd, hh⟩
    exact ⟨r.o, ho, r.v, hv, r.i, hi, r.op, hop, r.d, hd, r.h, hh, rfl⟩

theorem exists_group_of_mem_selectFrom {today : Int} {rows : List JoinRow}
    {row : TrainingRow} (h : row ∈ selectFrom today rows) :
    ∃ f g, rows.filter (fun r => groupKey r == groupKey f) = f :: g ∧
      rowOfGroup today (f :: g) = some row := by
  unfold selectFrom at h
  rw [List.mem_filterMap] at h
  obtain ⟨k, _, hrow⟩ := h
  cases hfil : rows.filter (fun r => groupKey r == k) with
  | nil => rw [hfil] at hrow; cases hrow
  | cons f g =>
    have hf : f ∈ rows.filter (fun r => groupKey r == k) := by
      rw [hfil]; exact List.mem_cons_self _ _
    have hkey : groupKey f = k := by
      have := (List.mem_filter.mp hf).2
      exact eq_of_beq this
    subst hkey
    rw [hfil] at hrow
    exact ⟨f, g, hfil, hrow⟩

theorem row_fields_of_group {today : Int} {f : JoinRow} {g : List JoinRow}
    {row : TrainingRow} (h : rowOfGroup today (f :: g) = some row) :
    row.visit_id = f.o.hn ++ "-" ++ f.o.vn ∧ row.hn = f.o.hn ∧ row.vn = f.o.vn ∧
    row.symptoms = f.o.cc.getD "Unknown" ∧
    row.icd10_code = (f.i.map Icd101Row.code).getD "Unknown" ∧
    row.disease_name = (f.i.bind Icd101Row.name).getD "Unknown" ∧
    row.medicines = medicinesOf (f :: g) ∧
    row.age = ageOf today f.o.vstdate ∧
    row.sex = (f.h.bind HisMemberRow.sex).getD "U" ∧
    row.visit_date = f.o.vstdate := by
  have h' := Option.some.inj h
  subst h'
  exact ⟨rfl, rfl, rfl, rfl, rfl, rfl, rfl, rfl, rfl, rfl⟩

theorem mem_group_mem_rows {rows : List JoinRow} {f : JoinRow} {g : List JoinRow}
    (hfil : rows.filter (fun r => groupKey r == groupKey f) = f :: g) :
    ∀ r ∈ f :: g, r ∈ rows ∧ groupKey r = groupKey f := by
  intro r hr
  rw [← hfil] at hr
  have := List.mem_filter.mp hr
  exact ⟨this.1, eq_of_beq this.2⟩

theorem selectFrom_length (today : Int) (rows : List JoinRow) :
    (selectFrom today rows).length = (dedupFirst (rows.map groupKey)).length := by
  unfold selectFrom
  apply length_filterMap_of_some
  intro k hk
  obtain ⟨r, hr, hkey⟩ := List.mem_map.mp (mem_dedupFirst.mp hk)
  have hrf : r ∈ rows.filter (fun x => groupKey x == k) :=
    List.mem_filter.mpr ⟨hr, by rw [hkey]; simp⟩
  cases hfil : rows.filter (fun x => groupKey x == k) with
  | nil => rw [hfil] at hrf; cases hrf
  | cons f g => simp [rowOfGroup]

/-! ## Concrete sample data (used by witness theorems) -/

/-- A source database with one fully-populated visit `H001-V001`:
diagnosis `A00`/`Cholera`, two resolving prescription line items, a
registry entry, and a chief complaint. -/
def sampleDb : SourceDb where
  opdscreen := [⟨"H001", "V001", some "fever", some ⟨2024, 5, 10⟩⟩]
  vn_stat := [⟨"V001", some "A00"⟩]
  icd101 := [⟨"A00", some "Cholera"⟩]
  opitemrece := [⟨"V001", "D1"⟩, ⟨"V001", "D2"⟩]
  drugitems := [⟨"D1", some "Paracetamol", some "500mg"⟩,
                ⟨"D2", some "ORS", some "250mg"⟩]
  hismember := [⟨"H001", some "M"⟩]

/-- The training row produced from `sampleDb` with current year 2025. -/
def sampleRow : TrainingRow where
  visit_id := "H001-V001"
  hn := "H001"
  vn := "V001"
  symptoms := "fever"
  icd10_code := "A00"
  disease_name := "Cholera"
  medicines := "Paracetamol 500mg|ORS 250mg"
  age := 1
  sex := "M"
  visit_date := some ⟨2024, 5, 10⟩

/-- A source database with one eligible but otherwise bare visit
`H002-V002`: no chief complaint, no prescriptions, no registry entry,
and a future visit date. -/
def defaultsDb : SourceDb where
  opdscreen := [⟨"H002", "V002", none, some ⟨2030, 1, 1⟩⟩]
  vn_stat := [⟨"V002", some "B00"⟩]
  icd101 := [⟨"B00", some "Herpes"⟩]
  opitemrece := []
  drugitems := []
  hismember := []

/-- The training row produced from `defaultsDb` with current year 2025. -/
def defaultsRow : TrainingRow where
  visit_id := "H002-V002"
  hn := "H002"
  vn := "V002"
  symptoms := "Unknown"
  icd10_code := "B00"
  disease_name := "Herpes"
  medicines := "Unknown"
  age := -5
  sex := "U"
  visit_date := some ⟨2030, 1, 1⟩

/-- A source database whose only visit has no `vn_stat` record, hence no
diagnosis match: `opdscreen` is non-empty but no row is eligible. -/
def ineligibleDb : SourceDb where
  opdscreen := [⟨"H003", "V003", some "cough", some ⟨2024, 1, 1⟩⟩]
  vn_stat := []
  icd101 := []
  opitemrece := []
  drugitems := []
  hismember := []

/-- A stale destination row for visit `H001-V001` (outdated symptoms),
used to exercise the update arm of the upsert. -/
def staleRow : TrainingRow where
  visit_id := "H001-V001"
  hn := "H001"
  vn := "V001"
  symptoms := "stale"
  icd10_code := "A00"
  disease_name := "Cholera"
  medicines := "Unknown"
  age := 0
  sex := "M"
  visit_date := some ⟨2024, 5, 10⟩

example : selectRows sampleDb 2025 = [sampleRow] := by decide
example : selectRows defaultsDb 2025 = [defaultsRow] := by decide
example : filteredRows ineligibleDb = [] := by decide
example : incrementalRows sampleDb 2025 ⟨2024, 1, 1⟩ = [sampleRow] := by decide
example : (upsertAll [staleRow] [sampleRow]).2 = 2 := by decide
example : fullRows sampleDb 2025 50000 = [sampleRow] := by decide

/-- A fresh record whose `visit_id` is absent from `[staleRow]`. -/
def freshRow : TrainingRow :=
  { sampleRow with visit_id := "H009-V009", hn := "H009", vn := "V009" }

/-! ## Claim theorems -/

/-- C1: a visit contributes a row to the destination (full sync), to the
preview output, or to the underlying select result only if one of its
join rows passes the `WHERE` eligibility filter — a matched (non-null)
diagnosis code together with a principal diagnosis that is non-empty
after trimming; a visit all of whose join rows fail the filter never
yields a row.  The filter is a total computation (`filteredRows`), so
the exclusion is silent rather than an error. -/
theorem claim1_eligibility_filter (db : SourceDb) (today : Int) (limit : Nat)
    (row : TrainingRow)
    (hrow : row ∈ fullRows db today limit ∨ row ∈ previewRows db today ∨
      row ∈ selectRows db today) :
    (∃ r, r ∈ joinedRows db ∧ eligibleJoin r = true ∧
      r.o.hn = row.hn ∧ r.o.vn = row.vn) ∧
    ∀ hn vn,
      (∀ r, r ∈ joinedRows db → r.o.hn = hn → r.o.vn = vn →
        eligibleJoin r = false) →
      ¬(row.hn = hn ∧ row.vn = vn) := by
  have hsel : row ∈ selectRows db today := by
    rcases hrow with h | h | h
    · exact (List.mem_insertionSort descByDate).mp (List.mem_of_mem_take h)
    · exact (List.mem_insertionSort descByDate).mp (List.mem_of_mem_take h)
    · exact h
  obtain ⟨f, g, hfil, hrowg⟩ := exists_group_of_mem_selectFrom hsel
  have hfmem : f ∈ filteredRows db :=
    (mem_group_mem_rows hfil f (List.mem_cons_self _ _)).1
  have hfelig := List.mem_filter.mp hfmem
  obtain ⟨_, hhn, hvn, _⟩ := row_fields_of_group hrowg
  refine ⟨⟨f, hfelig.1, hfelig.2, hhn.symm, hvn.symm⟩, ?_⟩
  rintro hn vn hall ⟨rfl, rfl⟩
  have h2 := hfelig.2
  rw [hall f hfelig.1 hhn.symm hvn.symm] at h2
  simp at h2

/-- C1 witness: the eligibility consequence instantiated at `sampleDb`
and the row it produces. -/
theorem claim1_eligibility_filter_witness :
    ∃ r, r ∈ joinedRows sampleDb ∧ eligibleJoin r = true ∧
      r.o.hn = sampleRow.hn ∧ r.o.vn = sampleRow.vn :=
  (claim1_eligibility_filter sampleDb 2025 50000 sampleRow
    (Or.inr (Or.inr (by decide)))).1

/-- C2: upserting a record whose `visit_id` already exists in the
destination rewrites that row to `updatedCols old new`, which overwrites
exactly `symptoms`, `disease_name`, `medicines` and `age` with the
incoming values and leaves `hn`, `vn`, `sex`, `visit_date` (and
`visit_id`) unchanged — the `ON DUPLICATE KEY UPDATE` column list of
`execute_incremental_sync`. -/
theorem claim2_upsert_frame (table : List TrainingRow) (r old : TrainingRow)
    (hmem : old ∈ table) (hid : old.visit_id = r.visit_id) :
    updatedCols old r ∈ (upsertOne table r).1 ∧
    (updatedCols old r).hn = old.hn ∧ (updatedCols old r).vn = old.vn ∧
    (updatedCols old r).sex = old.sex ∧
    (updatedCols old r).visit_date = old.visit_date ∧
    (updatedCols old r).visit_id = old.visit_id ∧
    (updatedCols old r).symptoms = r.symptoms ∧
    (updatedCols old r).disease_name = r.disease_name ∧
    (updatedCols old r).medicines = r.medicines ∧
    (updatedCols old r).age = r.age := by
  refine ⟨?_, rfl, rfl, rfl, rfl, rfl, rfl, rfl, rfl, rfl⟩
  unfold upsertOne
  cases hf : table.find? (fun t => t.visit_id == r.visit_id) with
  | none =>
    have hcontra := List.find?_eq_none.mp hf old hmem
    rw [hid] at hcontra
    simp at hcontra
  | some o' =>
    show updatedCols old r ∈
      table.map fun t => if t.visit_id == r.visit_id then updatedCols t r else t
    have hcond : (old.visit_id == r.visit_id) = true := beq_iff_eq.mpr hid
    have hmm := List.mem_map_of_mem
      (fun t => if t.visit_id == r.visit_id then updatedCols t r else t) hmem
    simpa [hcond] using hmm

/-- C2 witness: the frame property instantiated at a one-row table and a
freshly computed record with the same `visit_id`. -/
theorem claim2_upsert_frame_witness :
    updatedCols staleRow sampleRow ∈ (upsertOne [staleRow] sampleRow).1 ∧
    (updatedCols staleRow sampleRow).sex = staleRow.sex ∧
    (updatedCols staleRow sampleRow).symptoms = sampleRow.symptoms :=
  ⟨(claim2_upsert_frame [staleRow] sampleRow staleRow (by decide) (by decide)).1,
   (claim2_upsert_frame [staleRow] sampleRow staleRow (by decide)
      (by decide)).2.2.2.1,
   (claim2_upsert_frame [staleRow] sampleRow staleRow (by decide)
      (by decide)).2.2.2.2.2.2.1⟩

/-- `find?` on a table with pairwise-distinct `visit_id`s (the
destination `UNIQUE` constraint) locates the one row with the key. -/
theorem find?_visit_id_unique {table : List TrainingRow} {r old : TrainingRow}
    (hp : table.Pairwise (fun a b => a.visit_id ≠ b.visit_id))
    (hmem : old ∈ table) (hid : old.visit_id = r.visit_id) :
    table.find? (fun t => t.visit_id == r.visit_id) = some old := by
  induction table with
  | nil => cases hmem
  | cons a as ih =>
    rcases List.mem_cons.mp hmem with rfl | hmem'
    · have hcond : (old.visit_id == r.visit_id) = true := beq_iff_eq.mpr hid
      rw [List.find?_cons, hcond]
    · have hpa := (List.pairwise_cons.mp hp).1
      have hane : (a.visit_id == r.visit_id) = false := by
        simp only [beq_eq_false_iff_ne, ne_eq]
        intro heq
        exact (hpa old hmem') (heq.trans hid.symm)
      rw [List.find?_cons, hane]
      exact ih (List.pairwise_cons.mp hp).2 hmem'

/-- C3: the affected-row count contributed by one upserted record is 1
when its `visit_id` is absent from the table, 0 when the row exists and
every candidate column (`symptoms`, `disease_name`, `medicines`, `age`)
already equals its incoming value, and 2 when the row exists and at
least one of them changes; the total count of a multi-record upsert is
the sum of per-record contributions. -/
theorem claim3_upsert_affected_count (table : List TrainingRow)
    (r : TrainingRow) :
    ((∀ t ∈ table, t.visit_id ≠ r.visit_id) → (upsertOne table r).2 = 1) ∧
    (∀ old, table.Pairwise (fun a b => a.visit_id ≠ b.visit_id) →
      old ∈ table → old.visit_id = r.visit_id →
      (upsertOne table r).2 = if candidateColsEq old r then 0 else 2) ∧
    ∀ rest, (upsertAll table (r :: rest)).2 =
      (upsertOne table r).2 + (upsertAll (upsertOne table r).1 rest).2 := by
  refine ⟨?_, ?_, fun rest => rfl⟩
  · intro hnew
    have hf : table.find? (fun t => t.visit_id == r.visit_id) = none :=
      List.find?_eq_none.mpr fun t ht => by simp [hnew t ht]
    unfold upsertOne
    rw [hf]
  · intro old hp hmem hid
    unfold upsertOne
    rw [find?_visit_id_unique hp hmem hid]

/-- C3 witness: all three count outcomes on concrete one-row tables —
a fresh key inserts (1), a changed record updates (2), an identical
record is a no-op (0). -/
theorem claim3_upsert_affected_count_witness :
    (upsertOne [staleRow] freshRow).2 = 1 ∧
    (upsertOne [staleRow] sampleRow).2 = 2 ∧
    (upsertOne [staleRow] staleRow).2 = 0 := by
  refine ⟨(claim3_upsert_affected_count [staleRow] freshRow).1 (by decide),
    ?_, ?_⟩
  · rw [(claim3_upsert_affected_count [staleRow] sampleRow).2.1 staleRow
      (by simp) (by simp) (by decide)]
    decide
  · rw [(claim3_upsert_affected_count [staleRow] staleRow).2.1 staleRow
      (by simp) (by simp) (by decide)]
    decide

/-- C4: full sync truncates the destination before inserting, so a
second run over an unchanged source reproduces the same destination row
count, the same `visit_id` list, and the same statistics as the first
run. -/
theorem claim4_full_sync_idempotent (db : SourceDb) (today : Int)
    (limit : Nat) (dst : List TrainingRow) :
    (fullSync db today limit (fullSync db today limit dst).2).2.length =
      (fullSync db today limit dst).2.length ∧
    (fullSync db today limit (fullSync db today limit dst).2).2.map
        TrainingRow.visit_id =
      (fullSync db today limit dst).2.map TrainingRow.visit_id ∧
    (fullSync db today limit (fullSync db today limit dst).2).1 =
      (fullSync db today limit dst).1 :=
  ⟨rfl, rfl, rfl⟩

/-- C5: for an eligible visit, `medicines` defaults to `"Unknown"` when
no prescription line item links to the visit, `symptoms` defaults to
`"Unknown"` when the visit has no chief-complaint text, `sex` defaults
to `"U"` when no registry entry carries the patient's `hn`; otherwise
`medicines` is the pipe-joined, first-occurrence-deduplicated list of
the "name strength" strings of the line items that resolve through the
item-to-drug relation (`drugPairs` of the visit's group). -/
theorem claim5_defaulting (db : SourceDb) (today : Int) (row : TrainingRow)
    (hrow : row ∈ selectRows db today) :
    ((∀ op ∈ db.opitemrece, op.vn ≠ row.vn) → row.medicines = "Unknown") ∧
    ((∀ o ∈ db.opdscreen, o.hn = row.hn → o.vn = row.vn → o.cc = none) →
      row.symptoms = "Unknown") ∧
    ((∀ hm ∈ db.hismember, hm.hn ≠ row.hn) → row.sex = "U") ∧
    ∃ g, g ≠ [] ∧
      (∀ r ∈ g, r ∈ filteredRows db ∧ r.o.hn = row.hn ∧ r.o.vn = row.vn) ∧
      row.medicines = medicinesOf g ∧
      (drugPairs g ≠ [] →
        row.medicines = String.intercalate "|" (dedupFirst (drugPairs g))) := by
  obtain ⟨f, g, hfil, hrowg⟩ := exists_group_of_mem_selectFrom hrow
  obtain ⟨_, hhn, hvn, hsym, _, _, hmed, _, hsex, _⟩ :=
    row_fields_of_group hrowg
  have hmemg := mem_group_mem_rows hfil
  have hcomp : ∀ r ∈ f :: g,
      r ∈ filteredRows db ∧ r.o.hn = row.hn ∧ r.o.vn = row.vn := by
    intro r hr
    obtain ⟨hr1, hr2⟩ := hmemg r hr
    have h1 : r.o.hn = f.o.hn := congrArg (fun k => k.1) hr2
    have h2 : r.o.vn = f.o.vn := congrArg (fun k => k.2.1) hr2
    exact ⟨hr1, h1.trans hhn.symm, h2.trans hvn.symm⟩
  have hfj : f ∈ joinedRows db :=
    (List.mem_filter.mp (hcomp f (List.mem_cons_self _ _)).1).1
  refine ⟨?_, ?_, ?_, ?_⟩
  · intro hnoop
    rw [hmed]
    have hpairs : drugPairs (f :: g) = [] := by
      rw [drugPairs, List.filterMap_eq_nil_iff]
      intro r hr
      have hrj : r ∈ joinedRows db :=
        (List.mem_filter.mp (hcomp r hr).1).1
      obtain ⟨_, _, _, hop, hd, _⟩ := mem_joinedRows.mp hrj
      have hopn : r.op = none := by
        refine leftJoin_none (fun b hb => ?_) hop
        simp only [beq_eq_false_iff_ne, ne_eq]
        intro heq
        exact hnoop b hb (heq.trans (hcomp r hr).2.2)
      have hdn : r.d = none := by
        refine leftJoin_none (fun b _ => ?_) hd
        rw [hopn]
        rfl
      rw [hdn]
      rfl
    rw [medicinesOf, hpairs]
    rfl
  · intro hnocc
    rw [hsym, hnocc f.o (mem_joinedRows.mp hfj).1 hhn.symm hvn.symm]
    rfl
  · intro hnoh
    rw [hsex]
    obtain ⟨_, _, _, _, _, hh⟩ := mem_joinedRows.mp hfj
    have hhnone : f.h = none := by
      refine leftJoin_none (fun b hb => ?_) hh
      simp only [beq_eq_false_iff_ne, ne_eq]
      intro heq
      exact hnoh b hb (heq.trans hhn.symm)
    rw [hhnone]
    rfl
  · refine ⟨f :: g, by simp, hcomp, hmed, ?_⟩
    intro hne
    rw [hmed, medicinesOf]
    cases hd : dedupFirst (drugPairs (f :: g)) with
    | nil => exact absurd (dedupFirst_eq_nil_iff.mp hd) hne
    | cons a as => rfl

/-- C5 witness: the three defaults instantiated at `defaultsDb` and the
row it produces. -/
theorem claim5_defaulting_witness :
    defaultsRow.medicines = "Unknown" ∧ defaultsRow.symptoms = "Unknown" ∧
    defaultsRow.sex = "U" := by
  have h := claim5_defaulting defaultsDb 2025 defaultsRow (by decide)
  exact ⟨h.1 (by decide), h.2.1 (by decide), h.2.2.1 (by decide)⟩

/-- C6: a produced row's `age` is the current year minus the year of its
`visit_date`; a `NULL` `visit_date` degenerates to age 0 (the current
year compared against itself), and a future-dated visit yields a
negative age with no guard. -/
theorem claim6_age_year_difference (db : SourceDb) (today : Int)
    (row : TrainingRow) (hrow : row ∈ selectRows db today) :
    row.age = ageOf today row.visit_date ∧
    (row.visit_date = none → row.age = 0) ∧
    ∀ d, row.visit_date = some d → today < d.year → row.age < 0 := by
  obtain ⟨f, g, hfil, hrowg⟩ := exists_group_of_mem_selectFrom hrow
  obtain ⟨_, _, _, _, _, _, _, hage, _, hvd⟩ := row_fields_of_group hrowg
  refine ⟨by rw [hage, hvd], ?_, ?_⟩
  · intro hnone
    rw [hvd] at hnone
    rw [hage, hnone]
    show today - today = 0
    omega
  · intro d hd hlt
    rw [hvd] at hd
    rw [hage, hd]
    show today - d.year < 0
    omega

/-- C6 witness: the future-dated visit of `defaultsDb` under current
year 2025 receives a negative age. -/
theorem claim6_age_year_difference_witness :
    defaultsRow.age = ageOf 2025 defaultsRow.visit_date ∧
    defaultsRow.age < 0 := by
  have h := claim6_age_year_difference defaultsDb 2025 defaultsRow (by decide)
  exact ⟨h.1, h.2.2 ⟨2030, 1, 1⟩ (by decide) (by decide)⟩

/-- C7: when no source row is eligible, full sync returns a zero-valued
`SyncStats` — processed, inserted and errors all 0 — whether it
short-circuits on an empty `opdscreen` or executes the insert over an
empty eligible set; `fullSync` is a total function, so this path raises
no error. -/
theorem claim7_empty_source (db : SourceDb) (today : Int) (limit : Nat)
    (dst : List TrainingRow) (h : filteredRows db = []) :
    (fullSync db today limit dst).1 = ⟨0, 0, 0⟩ := by
  have hsel : selectRows db today = [] := by
    unfold selectRows selectFrom
    rw [h]
    rfl
  have hrows : fullRows db today limit = [] := by
    unfold fullRows
    rw [hsel]
    simp
  unfold fullSync
  rw [hrows]
  split <;> rfl

/-- C7 witness: a source with a non-empty `opdscreen` but no eligible
visit yields zero stats. -/
theorem claim7_empty_source_witness :
    (fullSync ineligibleDb 2025 50000 []).1 = ⟨0, 0, 0⟩ :=
  claim7_empty_source ineligibleDb 2025 50000 [] (by decide)

/-- C8: full sync and preview results are sorted by `visit_date`
descending; full sync is capped at the configured row limit and preview
is exactly the top 10 of the descending-sorted select output, persisting
nothing to the destination; incremental sync applies no limit — it
emits one row for every eligible visit group inside the time window. -/
theorem claim8_ordering_and_limits (db : SourceDb) (today : Int)
    (limit : Nat) (cutoff : Date) (dst : List TrainingRow) :
    List.Sorted descByDate (fullRows db today limit) ∧
    (fullRows db today limit).length ≤ limit ∧
    List.Sorted descByDate (previewRows db today) ∧
    previewRows db today =
      (List.insertionSort descByDate (selectRows db today)).take 10 ∧
    (previewRows db today).length ≤ 10 ∧
    (runPreview db today dst).2 = dst ∧
    (incrementalRows db today cutoff).length =
      (dedupFirst (((joinedRows db).filter fun r =>
        eligibleJoin r && inWindow cutoff r.o.vstdate).map groupKey)).length := by
  refine ⟨?_, ?_, ?_, rfl, ?_, rfl, ?_⟩
  · exact List.Pairwise.sublist (List.take_sublist _ _)
      (List.sorted_insertionSort descByDate _)
  · exact List.length_take_le _ _
  · exact List.Pairwise.sublist (List.take_sublist _ _)
      (List.sorted_insertionSort descByDate _)
  · exact List.length_take_le _ _
  · exact selectFrom_length today _

/-- C9: verifying an empty destination reports 0 for all five count
metrics and the `"N/A"` placeholder (not a number, not an error) for the
average-age metric; the six checks are computed independently and every
run reports all six labels. -/
theorem claim9_verify_empty_destination :
    verifyChecks [] =
      [("Total Records", "0"), ("Unique Patients (HN)", "0"),
       ("Unique Diseases (ICD10)", "0"),
       ("Records with Unknown Symptoms", "0"),
       ("Records with Unknown Disease", "0"), ("Average Age", "N/A")] ∧
    ∀ table, (verifyChecks table).map Prod.fst =
      ["Total Records", "Unique Patients (HN)", "Unique Diseases (ICD10)",
       "Records with Unknown Symptoms", "Records with Unknown Disease",
       "Average Age"] :=
  ⟨by decide, fun table => rfl⟩

/-- C10: on every (successful) incremental sync run, `total_processed`
and `total_inserted` are both set to the upsert affected-row count and
`total_errors` is 0; concretely, an update counted as 2 affected rows
reports `total_inserted = 2` while the destination row count is
unchanged. -/
theorem claim10_incremental_stats (db : SourceDb) (today : Int)
    (cutoff : Date) (dst : List TrainingRow) :
    (incrementalSync db today cutoff dst).1.total_processed =
      (upsertAll dst (incrementalRows db today cutoff)).2 ∧
    (incrementalSync db today cutoff dst).1.total_inserted =
      (incrementalSync db today cutoff dst).1.total_processed ∧
    (incrementalSync db today cutoff dst).1.total_errors = 0 ∧
    ∃ db2 dst2 today2 cutoff2,
      (incrementalSync db2 today2 cutoff2 dst2).1.total_inserted = 2 ∧
      ((incrementalSync db2 today2 cutoff2 dst2).2).length = dst2.length :=
  ⟨rfl, rfl, rfl, sampleDb, [staleRow], 2025, ⟨2024, 1, 1⟩,
    by decide, by decide⟩

end DiseaseSync
